import Mathlib

/-!
Shallow embedding of `src/batteryMonitor.py` (class `BatteryMonitor`).

Battery levels and wall-clock times are modelled as rationals (the Python
code uses floats from `psutil` and `time.time()`); `last_alert_time == 0`
is the "never alerted" sentinel, exactly as in `__init__`
(`self.last_alert_time = 0`).  Each iteration of `monitor_loop` is the
function `monitor_iter`; the outbound I/O (Telegram post, MQTT publish,
webhook post) is recorded in a `StepLog`, with an `Env` of oracles saying
whether each transport call succeeds.  All transport exceptions are caught
inside the corresponding method in the source (`send_telegram`,
`publish_mqtt`, `notify_webhook` each wrap their body in try/except), so
the oracles affect only the "delivered" entries of the log, never control
flow — mirroring the code.
-/

/-- The four state strings returned by `BatteryMonitor.evaluate_state`. -/
inductive BState where
  | CRITICAL_10
  | CRITICAL_30
  | WARNING_60
  | NORMAL
deriving DecidableEq, Repr

/-- `evaluate_state` (lines 173–181): the if/elif chain on `level`. -/
def evaluate_state (level : ℚ) : BState :=
  if level < 10 then .CRITICAL_10
  else if level < 30 then .CRITICAL_30
  else if level < 60 then .WARNING_60
  else .NORMAL

/-- Urgency order of the severity tiers (spec section 3:
`Normal < Warning60 < Critical30 < Critical10`). -/
def urgency : BState → ℕ
  | .NORMAL => 0
  | .WARNING_60 => 1
  | .CRITICAL_30 => 2
  | .CRITICAL_10 => 3

/-- The mutable fields `self.current_state` and `self.last_alert_time`. -/
structure MonitorState where
  current_state : BState
  last_alert_time : ℚ
deriving DecidableEq, Repr

/-- Startup values from `__init__`: `current_state = "NORMAL"`,
`last_alert_time = 0`. -/
def initialState : MonitorState := ⟨.NORMAL, 0⟩

/-- A successful sensor reading: `{"level": ..., "plugged": ...}`. -/
structure BatteryReading where
  level : ℚ
  plugged : Bool
deriving DecidableEq, Repr

/-- Outcome of the raw `psutil.sensors_battery()` call: a battery object,
`None` (no battery present), or an exception. -/
inductive SensorOutcome where
  | battery (level : ℚ) (plugged : Bool)
  | noBattery
  | raises
deriving DecidableEq, Repr

/-- `get_battery_status` (lines 156–167): returns the level/plugged dict
when a battery object is returned, `None` when `psutil` returns `None`,
and — because the whole body is wrapped in try/except — also `None` when
the sensor read raises. -/
def get_battery_status : SensorOutcome → Option BatteryReading
  | .battery l p => some ⟨l, p⟩
  | .noBattery => none
  | .raises => none

/-- Constructor configuration relevant to the loop: whether MQTT is
enabled and a client object exists (`self.mqtt_enabled and
self.mqtt_client`), and whether `webhook_url` is set. -/
structure Config where
  mqtt_enabled : Bool
  mqtt_client : Bool
  webhook_url : Bool
deriving DecidableEq, Repr

/-- Success oracles for the three outbound transports in one iteration:
whether the Telegram HTTP post, the MQTT publish, and the webhook post
each succeed.  Failures are caught inside the respective methods. -/
structure Env where
  telegramOk : Bool
  mqttOk : Bool
  webhookOk : Bool
deriving DecidableEq, Repr

/-- The three alert message templates of `monitor_loop`, each carrying the
level that is interpolated into the text. -/
inductive AlertMsg where
  | advertencia (level : ℚ)
  | critica (level : ℚ)
  | muyBaja (level : ℚ)
deriving DecidableEq, Repr

/-- `send_telegram` (lines 104–111): the post is attempted, and any
exception is caught and logged inside the method, so the caller always
continues.  Returns (attempted messages, delivered messages). -/
def send_telegram (env : Env) (msg : AlertMsg) : List AlertMsg × List AlertMsg :=
  ([msg], if env.telegramOk then [msg] else [])

/-- `publish_mqtt` (lines 117–124): publishes only when MQTT is enabled
and a client exists; a nonzero result code or an exception is only
logged.  Returns (publish attempts, successful publishes). -/
def publish_mqtt (cfg : Config) (env : Env) : ℕ × ℕ :=
  if cfg.mqtt_enabled && cfg.mqtt_client then
    (1, if env.mqttOk then 1 else 0)
  else (0, 0)

/-- `notify_webhook` (lines 131–136): posts only when a webhook URL is
configured; exceptions are caught and logged inside the method. -/
def notify_webhook (cfg : Config) (env : Env) : ℕ × ℕ :=
  if cfg.webhook_url then
    (1, if env.webhookOk then 1 else 0)
  else (0, 0)

/-- Everything one iteration of `monitor_loop` sends out. -/
structure StepLog where
  mqttPublishes : ℕ
  mqttDelivered : ℕ
  webhookPosts : ℕ
  webhookDelivered : ℕ
  telegramAttempts : List AlertMsg
  telegramDelivered : List AlertMsg
  futureActionCalls : List ℚ
deriving DecidableEq, Repr

/-- The log of an iteration that performed no I/O. -/
def emptyLog : StepLog := ⟨0, 0, 0, 0, [], [], []⟩

/-- Lines 204–207: when the freshly classified state differs from
`self.current_state`, adopt it and reset `self.last_alert_time` to 0. -/
def apply_transition (s : MonitorState) (new_state : BState) : MonitorState :=
  if new_state ≠ s.current_state then ⟨new_state, 0⟩ else s

/-- Result of the per-tier if/elif chain: the updated state, the Telegram
messages attempted and delivered, and the levels passed to
`future_action` from inside the alert branches. -/
structure TierOut where
  state : MonitorState
  att : List AlertMsg
  del : List AlertMsg
  fa : List ℚ
deriving DecidableEq, Repr

/-- Lines 209–228: the per-tier alert policy, run on the state after
`apply_transition`.  Each alert branch sends one Telegram message, calls
`future_action(level)`, and sets `last_alert_time = current_time`. -/
def tier_policy (env : Env) (s1 : MonitorState) (current_time level : ℚ) : TierOut :=
  if s1.current_state = .WARNING_60 then
    if s1.last_alert_time = 0 then
      let tg := send_telegram env (.advertencia level)
      ⟨⟨s1.current_state, current_time⟩, tg.1, tg.2, [level]⟩
    else ⟨s1, [], [], []⟩
  else if s1.current_state = .CRITICAL_30 then
    if current_time - s1.last_alert_time > 300 then
      let tg := send_telegram env (.critica level)
      ⟨⟨s1.current_state, current_time⟩, tg.1, tg.2, [level]⟩
    else ⟨s1, [], [], []⟩
  else if s1.current_state = .CRITICAL_10 then
    if current_time - s1.last_alert_time > 60 then
      let tg := send_telegram env (.muyBaja level)
      ⟨⟨s1.current_state, current_time⟩, tg.1, tg.2, [level]⟩
    else ⟨s1, [], [], []⟩
  else if s1.current_state = .NORMAL then
    ⟨⟨s1.current_state, 0⟩, [], [], []⟩
  else ⟨s1, [], [], []⟩

/-- One iteration of the body of `monitor_loop` (lines 189–233), given
the already-fetched `status`.  When `status` is `None` the whole
classification/notification block is skipped.  Otherwise: publish the raw
reading to MQTT and webhook, run the transition check, run the per-tier
policy, and finally call `future_action(level)` once more if
`level == 100` (line 230). -/
def monitor_iter (cfg : Config) (env : Env) (s : MonitorState) (current_time : ℚ)
    (status : Option BatteryReading) : MonitorState × StepLog :=
  match status with
  | none => (s, emptyLog)
  | some reading =>
    let level := reading.level
    let new_state := evaluate_state level
    let mq := publish_mqtt cfg env
    let wh := notify_webhook cfg env
    let s1 := apply_transition s new_state
    let tp := tier_policy env s1 current_time level
    let fa := if level = 100 then tp.fa ++ [level] else tp.fa
    (tp.state, ⟨mq.1, mq.2, wh.1, wh.2, tp.att, tp.del, fa⟩)

/-- Run a sequence of iterations, each with its own current time and
sensor status, threading the state and counting Telegram alert
attempts. -/
def monitor_run (cfg : Config) (env : Env) :
    MonitorState → List (ℚ × Option BatteryReading) → MonitorState × ℕ
  | s, [] => (s, 0)
  | s, (t, st) :: rest =>
    let o := monitor_iter cfg env s t st
    let r := monitor_run cfg env o.1 rest
    (r.1, o.2.telegramAttempts.length + r.2)

/-- A sustained reading at a fixed level, polled once per second from
time `t0` for `secs` seconds (readings at `t0, t0+1, ..., t0+secs`). -/
def sustained (level t0 : ℚ) (secs : ℕ) : List (ℚ × Option BatteryReading) :=
  (List.range (secs + 1)).map (fun i : ℕ => (t0 + (i : ℚ), some ⟨level, false⟩))

/-- Number of alerts produced by a sustained fixed-level run started from
the startup state at wall-clock time 1000, all transports healthy. -/
def sustainedAlerts (level : ℚ) (secs : ℕ) : ℕ :=
  (monitor_run ⟨true, true, true⟩ ⟨true, true, true⟩ initialState
    (sustained level 1000 secs)).2

/-- The log of an iteration that published telemetry but sent no alert. -/
def quietLog (cfg : Config) (env : Env) : StepLog :=
  ⟨(publish_mqtt cfg env).1, (publish_mqtt cfg env).2,
   (notify_webhook cfg env).1, (notify_webhook cfg env).2, [], [], []⟩

/-- The log of an iteration that published telemetry and sent one alert
message, invoking the future-action hook with the alerted level. -/
def alertLog (cfg : Config) (env : Env) (msg : AlertMsg) (level : ℚ) : StepLog :=
  ⟨(publish_mqtt cfg env).1, (publish_mqtt cfg env).2,
   (notify_webhook cfg env).1, (notify_webhook cfg env).2,
   [msg], if env.telegramOk then [msg] else [], [level]⟩

/-- Body of an HTTP response from the `/battery` route. -/
inductive ApiBody where
  | status (level : ℚ) (plugged : Bool)
  | errorNoBattery
  | errorInternal
deriving DecidableEq, Repr

/-- The `/battery` route (lines 243–254): it calls `get_battery_status`
(which never raises — its own try/except turns a sensor exception into
`None`), answers 200 with the reading when one is present, and 500
No-battery when `None`.  The route-level try/except answers 500
Internal-error only when building the response itself raises, which the
oracle `jsonifyRaises` models. -/
def battery_route (jsonifyRaises : Bool) (sr : SensorOutcome) : ℕ × ApiBody :=
  match get_battery_status sr with
  | some r =>
    if jsonifyRaises then (500, .errorInternal) else (200, .status r.level r.plugged)
  | none =>
    if jsonifyRaises then (500, .errorInternal) else (500, .errorNoBattery)

lemma apply_transition_current (s : MonitorState) (b : BState) :
    (apply_transition s b).current_state = b := by
  unfold apply_transition
  split_ifs with h
  · rfl
  · exact (not_ne_iff.mp h).symm


lemma tier_policy_of_w60 (env : Env) (s1 : MonitorState) (t level : ℚ)
    (h : s1.current_state = .WARNING_60) :
    tier_policy env s1 t level =
      if s1.last_alert_time = 0 then
        ⟨⟨.WARNING_60, t⟩, [.advertencia level],
          if env.telegramOk then [.advertencia level] else [], [level]⟩
      else ⟨s1, [], [], []⟩ := by
  simp only [tier_policy, h, send_telegram]
  simp

lemma tier_policy_of_c30 (env : Env) (s1 : MonitorState) (t level : ℚ)
    (h : s1.current_state = .CRITICAL_30) :
    tier_policy env s1 t level =
      if 300 < t - s1.last_alert_time then
        ⟨⟨.CRITICAL_30, t⟩, [.critica level],
          if env.telegramOk then [.critica level] else [], [level]⟩
      else ⟨s1, [], [], []⟩ := by
  simp only [tier_policy, h, send_telegram]
  simp [gt_iff_lt]

lemma tier_policy_of_c10 (env : Env) (s1 : MonitorState) (t level : ℚ)
    (h : s1.current_state = .CRITICAL_10) :
    tier_policy env s1 t level =
      if 60 < t - s1.last_alert_time then
        ⟨⟨.CRITICAL_10, t⟩, [.muyBaja level],
          if env.telegramOk then [.muyBaja level] else [], [level]⟩
      else ⟨s1, [], [], []⟩ := by
  simp only [tier_policy, h, send_telegram]
  simp [gt_iff_lt]

lemma tier_policy_of_normal (env : Env) (s1 : MonitorState) (t level : ℚ)
    (h : s1.current_state = .NORMAL) :
    tier_policy env s1 t level = ⟨⟨.NORMAL, 0⟩, [], [], []⟩ := by
  simp only [tier_policy, h]
  simp

lemma monitor_iter_some (cfg : Config) (env : Env) (s : MonitorState) (t : ℚ)
    (r : BatteryReading) :
    monitor_iter cfg env s t (some r) =
      ((tier_policy env (apply_transition s (evaluate_state r.level)) t r.level).state,
       ⟨(publish_mqtt cfg env).1, (publish_mqtt cfg env).2,
        (notify_webhook cfg env).1, (notify_webhook cfg env).2,
        (tier_policy env (apply_transition s (evaluate_state r.level)) t r.level).att,
        (tier_policy env (apply_transition s (evaluate_state r.level)) t r.level).del,
        if r.level = 100 then
          (tier_policy env (apply_transition s (evaluate_state r.level)) t r.level).fa ++ [r.level]
        else (tier_policy env (apply_transition s (evaluate_state r.level)) t r.level).fa⟩) := rfl

lemma evaluate_state_hundred : evaluate_state 100 = .NORMAL := by decide

lemma monitor_iter_c30 (cfg : Config) (env : Env) (s : MonitorState) (t level : ℚ) (p : Bool)
    (hsev : evaluate_state level = .CRITICAL_30) :
    monitor_iter cfg env s t (some ⟨level, p⟩) =
      if 300 < t - (apply_transition s .CRITICAL_30).last_alert_time then
        (⟨.CRITICAL_30, t⟩, alertLog cfg env (.critica level) level)
      else (apply_transition s .CRITICAL_30, quietLog cfg env) := by
  have h100 : level ≠ 100 := by
    rintro rfl
    rw [evaluate_state_hundred] at hsev
    exact BState.noConfusion hsev
  rw [monitor_iter_some]
  simp only [hsev]
  rw [tier_policy_of_c30 _ _ _ _ (apply_transition_current s _)]
  by_cases h : 300 < t - (apply_transition s .CRITICAL_30).last_alert_time
  · simp only [if_pos h]
    simp [alertLog, h100]
  · simp only [if_neg h]
    simp [quietLog, h100]

lemma monitor_iter_c10 (cfg : Config) (env : Env) (s : MonitorState) (t level : ℚ) (p : Bool)
    (hsev : evaluate_state level = .CRITICAL_10) :
    monitor_iter cfg env s t (some ⟨level, p⟩) =
      if 60 < t - (apply_transition s .CRITICAL_10).last_alert_time then
        (⟨.CRITICAL_10, t⟩, alertLog cfg env (.muyBaja level) level)
      else (apply_transition s .CRITICAL_10, quietLog cfg env) := by
  have h100 : level ≠ 100 := by
    rintro rfl
    rw [evaluate_state_hundred] at hsev
    exact BState.noConfusion hsev
  rw [monitor_iter_some]
  simp only [hsev]
  rw [tier_policy_of_c10 _ _ _ _ (apply_transition_current s _)]
  by_cases h : 60 < t - (apply_transition s .CRITICAL_10).last_alert_time
  · simp only [if_pos h]
    simp [alertLog, h100]
  · simp only [if_neg h]
    simp [quietLog, h100]

lemma monitor_iter_w60 (cfg : Config) (env : Env) (s : MonitorState) (t level : ℚ) (p : Bool)
    (hsev : evaluate_state level = .WARNING_60) :
    monitor_iter cfg env s t (some ⟨level, p⟩) =
      if (apply_transition s .WARNING_60).last_alert_time = 0 then
        (⟨.WARNING_60, t⟩, alertLog cfg env (.advertencia level) level)
      else (apply_transition s .WARNING_60, quietLog cfg env) := by
  have h100 : level ≠ 100 := by
    rintro rfl
    rw [evaluate_state_hundred] at hsev
    exact BState.noConfusion hsev
  rw [monitor_iter_some]
  simp only [hsev]
  rw [tier_policy_of_w60 _ _ _ _ (apply_transition_current s _)]
  by_cases h : (apply_transition s .WARNING_60).last_alert_time = 0
  · simp only [if_pos h]
    simp [alertLog, h100]
  · simp only [if_neg h]
    simp [quietLog, h100]

lemma monitor_iter_normal (cfg : Config) (env : Env) (s : MonitorState) (t level : ℚ) (p : Bool)
    (hsev : evaluate_state level = .NORMAL) :
    monitor_iter cfg env s t (some ⟨level, p⟩) =
      (⟨.NORMAL, 0⟩,
       ⟨(publish_mqtt cfg env).1, (publish_mqtt cfg env).2,
        (notify_webhook cfg env).1, (notify_webhook cfg env).2, [], [],
        if level = 100 then [level] else []⟩) := by
  rw [monitor_iter_some]
  simp only [hsev]
  rw [tier_policy_of_normal _ _ _ _ (apply_transition_current s _)]
  simp

lemma monitor_run_append (cfg : Config) (env : Env) (s : MonitorState)
    (l₁ l₂ : List (ℚ × Option BatteryReading)) :
    monitor_run cfg env s (l₁ ++ l₂) =
      ((monitor_run cfg env (monitor_run cfg env s l₁).1 l₂).1,
       (monitor_run cfg env s l₁).2 + (monitor_run cfg env (monitor_run cfg env s l₁).1 l₂).2) := by
  induction l₁ generalizing s with
  | nil => simp [monitor_run]
  | cons q rest ih =>
    obtain ⟨t, st⟩ := q
    simp only [List.cons_append, monitor_run, List.append_eq]
    rw [ih]
    simp [Nat.add_assoc]

lemma run_c30_quiet (cfg : Config) (env : Env) (ta : ℚ)
    (l : List (ℚ × Option BatteryReading))
    (hl : ∀ q ∈ l, ∃ t r, q = (t, some r) ∧ evaluate_state r.level = .CRITICAL_30 ∧
      ¬ 300 < t - ta) :
    monitor_run cfg env ⟨.CRITICAL_30, ta⟩ l = (⟨.CRITICAL_30, ta⟩, 0) := by
  induction l with
  | nil => rfl
  | cons q rest ih =>
    obtain ⟨t, r, rfl, hsev, hq⟩ := hl _ (List.mem_cons_self _ _)
    obtain ⟨lv, pl⟩ := r
    have hrest := fun q hq' => hl q (List.mem_cons_of_mem _ hq')
    simp only [monitor_run]
    rw [monitor_iter_c30 _ _ _ _ _ _ hsev]
    simp only [apply_transition] at hq ⊢
    simp [hq, quietLog, ih hrest]

lemma run_c10_quiet (cfg : Config) (env : Env) (ta : ℚ)
    (l : List (ℚ × Option BatteryReading))
    (hl : ∀ q ∈ l, ∃ t r, q = (t, some r) ∧ evaluate_state r.level = .CRITICAL_10 ∧
      ¬ 60 < t - ta) :
    monitor_run cfg env ⟨.CRITICAL_10, ta⟩ l = (⟨.CRITICAL_10, ta⟩, 0) := by
  induction l with
  | nil => rfl
  | cons q rest ih =>
    obtain ⟨t, r, rfl, hsev, hq⟩ := hl _ (List.mem_cons_self _ _)
    obtain ⟨lv, pl⟩ := r
    have hrest := fun q hq' => hl q (List.mem_cons_of_mem _ hq')
    simp only [monitor_run]
    rw [monitor_iter_c10 _ _ _ _ _ _ hsev]
    simp only [apply_transition] at hq ⊢
    simp [hq, quietLog, ih hrest]

lemma run_w60_quiet (cfg : Config) (env : Env) (ta : ℚ) (hta : ta ≠ 0)
    (l : List (ℚ × Option BatteryReading))
    (hl : ∀ q ∈ l, ∃ t r, q = (t, some r) ∧ evaluate_state r.level = .WARNING_60) :
    monitor_run cfg env ⟨.WARNING_60, ta⟩ l = (⟨.WARNING_60, ta⟩, 0) := by
  induction l with
  | nil => rfl
  | cons q rest ih =>
    obtain ⟨t, r, rfl, hsev⟩ := hl _ (List.mem_cons_self _ _)
    obtain ⟨lv, pl⟩ := r
    have hrest := fun q hq' => hl q (List.mem_cons_of_mem _ hq')
    simp only [monitor_run]
    rw [monitor_iter_w60 _ _ _ _ _ _ hsev]
    simp only [apply_transition]
    simp [hta, quietLog, ih hrest]

lemma sustained_succ (level t0 : ℚ) (n : ℕ) :
    sustained level t0 (n + 1) =
      sustained level t0 n ++ [(t0 + ((n : ℚ) + 1), some ⟨level, false⟩)] := by
  unfold sustained
  rw [List.range_succ, List.map_append]
  norm_num

lemma sustained_eq_cons (level t0 : ℚ) (n : ℕ) :
    sustained level t0 n = (t0, some ⟨level, false⟩) ::
      (List.range n).map (fun i : ℕ => (t0 + ((i : ℚ) + 1), some ⟨level, false⟩)) := by
  unfold sustained
  rw [List.range_succ_eq_map, List.map_cons, List.map_map]
  simp only [Function.comp_def]
  push_cast
  simp

lemma run_sustained_c30 (cfg : Config) (env : Env) (n : ℕ) (hn : n ≤ 300) :
    monitor_run cfg env initialState (sustained 20 1000 n) =
      (⟨.CRITICAL_30, 1000⟩, 1) := by
  rw [sustained_eq_cons]
  simp only [monitor_run]
  rw [monitor_iter_c30 _ _ _ _ _ _ (by decide)]
  have hA : apply_transition initialState .CRITICAL_30 = ⟨.CRITICAL_30, 0⟩ := by
    simp [apply_transition, initialState]
  rw [hA]
  rw [if_pos (by norm_num)]
  rw [run_c30_quiet cfg env 1000 _ ?_]
  · simp [alertLog]
  · intro q hq
    simp only [List.mem_map, List.mem_range] at hq
    obtain ⟨i, hi, rfl⟩ := hq
    refine ⟨1000 + ((i : ℚ) + 1), ⟨20, false⟩, rfl, by decide, ?_⟩
    have : (i : ℚ) ≤ 299 := by
      have : i ≤ 299 := by omega
      exact_mod_cast this
    linarith

lemma run_sustained_c10 (cfg : Config) (env : Env) (n : ℕ) (hn : n ≤ 60) :
    monitor_run cfg env initialState (sustained 5 1000 n) =
      (⟨.CRITICAL_10, 1000⟩, 1) := by
  rw [sustained_eq_cons]
  simp only [monitor_run]
  rw [monitor_iter_c10 _ _ _ _ _ _ (by decide)]
  have hA : apply_transition initialState .CRITICAL_10 = ⟨.CRITICAL_10, 0⟩ := by
    simp [apply_transition, initialState]
  rw [hA]
  rw [if_pos (by norm_num)]
  rw [run_c10_quiet cfg env 1000 _ ?_]
  · simp [alertLog]
  · intro q hq
    simp only [List.mem_map, List.mem_range] at hq
    obtain ⟨i, hi, rfl⟩ := hq
    refine ⟨1000 + ((i : ℚ) + 1), ⟨5, false⟩, rfl, by decide, ?_⟩
    have : (i : ℚ) ≤ 59 := by
      have : i ≤ 59 := by omega
      exact_mod_cast this
    linarith

lemma sustainedAlerts_c30_301 : sustainedAlerts 20 301 = 2 := by
  unfold sustainedAlerts
  have h301 : (301 : ℕ) = 300 + 1 := rfl
  rw [h301, sustained_succ, monitor_run_append, run_sustained_c30 _ _ 300 le_rfl]
  simp only [monitor_run]
  rw [monitor_iter_c30 _ _ _ _ _ _ (by decide)]
  have hA : apply_transition (⟨.CRITICAL_30, 1000⟩ : MonitorState) .CRITICAL_30 =
      ⟨.CRITICAL_30, 1000⟩ := by
    simp [apply_transition]
  rw [hA]
  rw [if_pos (by push_cast; norm_num)]
  simp [alertLog]

lemma sustainedAlerts_c30_299 : sustainedAlerts 20 299 = 1 := by
  unfold sustainedAlerts
  rw [run_sustained_c30 _ _ 299 (by omega)]

lemma sustainedAlerts_c10_61 : sustainedAlerts 5 61 = 2 := by
  unfold sustainedAlerts
  have h61 : (61 : ℕ) = 60 + 1 := rfl
  rw [h61, sustained_succ, monitor_run_append, run_sustained_c10 _ _ 60 le_rfl]
  simp only [monitor_run]
  rw [monitor_iter_c10 _ _ _ _ _ _ (by decide)]
  have hA : apply_transition (⟨.CRITICAL_10, 1000⟩ : MonitorState) .CRITICAL_10 =
      ⟨.CRITICAL_10, 1000⟩ := by
    simp [apply_transition]
  rw [hA]
  rw [if_pos (by push_cast; norm_num)]
  simp [alertLog]

lemma sustainedAlerts_c10_59 : sustainedAlerts 5 59 = 1 := by
  unfold sustainedAlerts
  rw [run_sustained_c10 _ _ 59 (by omega)]

/-- C2: evaluate_state is a total pure function of the level with strict
upper boundaries (level < 10 gives CRITICAL_10, 10 ≤ level < 30 gives
CRITICAL_30, 30 ≤ level < 60 gives WARNING_60, level ≥ 60 gives NORMAL,
so exactly one severity applies), its urgency is non-increasing in the
level, and the boundary points 30 and 60 land in the lower-severity
band. -/
theorem evaluate_state_classification :
    (∀ level : ℚ,
      (evaluate_state level = .CRITICAL_10 ↔ level < 10) ∧
      (evaluate_state level = .CRITICAL_30 ↔ 10 ≤ level ∧ level < 30) ∧
      (evaluate_state level = .WARNING_60 ↔ 30 ≤ level ∧ level < 60) ∧
      (evaluate_state level = .NORMAL ↔ 60 ≤ level)) ∧
    (∀ l₁ l₂ : ℚ, l₁ ≤ l₂ → urgency (evaluate_state l₂) ≤ urgency (evaluate_state l₁)) ∧
    evaluate_state 30 = .WARNING_60 ∧ evaluate_state 60 = .NORMAL := by
  refine ⟨?_, ?_, by decide, by decide⟩
  · intro level
    unfold evaluate_state
    split_ifs with h1 h2 h3 <;>
      refine ⟨?_, ?_, ?_, ?_⟩ <;> simp_all <;> intros <;> linarith
  · intro l₁ l₂ h
    unfold evaluate_state
    split_ifs <;> norm_num [urgency] <;> linarith

/-- Witness for C2 at concrete inputs: 9.9 is at least as urgent as 10. -/
theorem evaluate_state_classification_witness :
    (99 / 10 : ℚ) ≤ 10 ∧
    urgency (evaluate_state 10) ≤ urgency (evaluate_state (99 / 10 : ℚ)) :=
  ⟨by norm_num, evaluate_state_classification.2.1 (99 / 10) 10 (by norm_num)⟩

/-- C1: in an iteration whose reading classifies as CRITICAL_30 (and with
the wall clock past 300, as `time.time()` always is), an alert is
attempted iff the cooldown-relevant `last_alert_time` (after the
transition reset of lines 204–207) is the never-sentinel 0 or lies more
than 300 seconds in the past; and a sustained CRITICAL_30 polled once a
second for 301 seconds yields exactly two alerts while 299 seconds yield
exactly one. -/
theorem critical30_alert_policy (cfg : Config) (env : Env) (s : MonitorState)
    (t level : ℚ) (p : Bool) (ht : 300 < t)
    (hsev : evaluate_state level = .CRITICAL_30) :
    ((monitor_iter cfg env s t (some ⟨level, p⟩)).2.telegramAttempts ≠ [] ↔
      ((apply_transition s .CRITICAL_30).last_alert_time = 0 ∨
        300 < t - (apply_transition s .CRITICAL_30).last_alert_time)) ∧
    sustainedAlerts 20 301 = 2 ∧ sustainedAlerts 20 299 = 1 := by
  refine ⟨?_, sustainedAlerts_c30_301, sustainedAlerts_c30_299⟩
  rw [monitor_iter_c30 _ _ _ _ _ _ hsev]
  by_cases h : 300 < t - (apply_transition s .CRITICAL_30).last_alert_time
  · simp [if_pos h, alertLog, h]
  · simp only [if_neg h]
    simp [quietLog, h]
    intro h0
    rw [h0] at h
    simp at h
    linarith

/-- Witness for C1 at a concrete fresh entry into CRITICAL_30. -/
theorem critical30_alert_policy_witness :
    ((monitor_iter ⟨true, true, true⟩ ⟨true, true, true⟩ initialState 1000
        (some ⟨20, false⟩)).2.telegramAttempts ≠ [] ↔
      ((apply_transition initialState .CRITICAL_30).last_alert_time = 0 ∨
        300 < (1000 : ℚ) - (apply_transition initialState .CRITICAL_30).last_alert_time)) ∧
    sustainedAlerts 20 301 = 2 ∧ sustainedAlerts 20 299 = 1 :=
  critical30_alert_policy ⟨true, true, true⟩ ⟨true, true, true⟩ initialState 1000 20 false
    (by norm_num) (by decide)

/-- C4: in an iteration whose reading classifies as CRITICAL_10 (with the
wall clock past 60), an alert is attempted iff the cooldown-relevant
`last_alert_time` is the never-sentinel 0 or lies more than 60 seconds in
the past; a sustained CRITICAL_10 polled once a second for 61 seconds
yields exactly two alerts while 59 seconds yield exactly one. -/
theorem critical10_alert_policy (cfg : Config) (env : Env) (s : MonitorState)
    (t level : ℚ) (p : Bool) (ht : 60 < t)
    (hsev : evaluate_state level = .CRITICAL_10) :
    ((monitor_iter cfg env s t (some ⟨level, p⟩)).2.telegramAttempts ≠ [] ↔
      ((apply_transition s .CRITICAL_10).last_alert_time = 0 ∨
        60 < t - (apply_transition s .CRITICAL_10).last_alert_time)) ∧
    sustainedAlerts 5 61 = 2 ∧ sustainedAlerts 5 59 = 1 := by
  refine ⟨?_, sustainedAlerts_c10_61, sustainedAlerts_c10_59⟩
  rw [monitor_iter_c10 _ _ _ _ _ _ hsev]
  by_cases h : 60 < t - (apply_transition s .CRITICAL_10).last_alert_time
  · simp [if_pos h, alertLog, h]
  · simp only [if_neg h]
    simp [quietLog, h]
    intro h0
    rw [h0] at h
    simp at h
    linarith

/-- Witness for C4 at a concrete fresh entry into CRITICAL_10. -/
theorem critical10_alert_policy_witness :
    ((monitor_iter ⟨true, true, true⟩ ⟨true, true, true⟩ initialState 1000
        (some ⟨5, false⟩)).2.telegramAttempts ≠ [] ↔
      ((apply_transition initialState .CRITICAL_10).last_alert_time = 0 ∨
        60 < (1000 : ℚ) - (apply_transition initialState .CRITICAL_10).last_alert_time)) ∧
    sustainedAlerts 5 61 = 2 ∧ sustainedAlerts 5 59 = 1 :=
  critical10_alert_policy ⟨true, true, true⟩ ⟨true, true, true⟩ initialState 1000 5 false
    (by norm_num) (by decide)

/-- C3: entering WARNING_60 from any other tier produces exactly one
alert in that iteration, and every later consecutive reading that still
classifies as WARNING_60 produces no further alert, at whatever times
those readings occur. -/
theorem warning60_single_alert (cfg : Config) (env : Env) (s : MonitorState)
    (t level : ℚ) (p : Bool) (ht : 0 < t)
    (hne : s.current_state ≠ .WARNING_60)
    (hsev : evaluate_state level = .WARNING_60) :
    (monitor_iter cfg env s t (some ⟨level, p⟩)).2.telegramAttempts.length = 1 ∧
    ∀ rest : List (ℚ × BatteryReading),
      (∀ q ∈ rest, evaluate_state q.2.level = .WARNING_60) →
      (monitor_run cfg env (monitor_iter cfg env s t (some ⟨level, p⟩)).1
        (rest.map (fun q => (q.1, some q.2)))).2 = 0 := by
  have hco : (BState.WARNING_60 : BState) ≠ s.current_state := fun hh => hne hh.symm
  have hA : apply_transition s .WARNING_60 = ⟨.WARNING_60, 0⟩ := by
    unfold apply_transition
    rw [if_pos hco]
  have hiter : monitor_iter cfg env s t (some ⟨level, p⟩) =
      (⟨.WARNING_60, t⟩, alertLog cfg env (.advertencia level) level) := by
    rw [monitor_iter_w60 _ _ _ _ _ _ hsev, hA]
    rw [if_pos (show ((⟨BState.WARNING_60, (0 : ℚ)⟩ : MonitorState).last_alert_time = 0)
      from rfl)]
  refine ⟨by rw [hiter]; simp [alertLog], ?_⟩
  intro rest hrest
  rw [hiter]
  dsimp only
  rw [run_w60_quiet cfg env t ht.ne' _ ?_]
  · intro q hq
    simp only [List.mem_map] at hq
    obtain ⟨⟨tq, rq⟩, hmem, rfl⟩ := hq
    exact ⟨tq, rq, rfl, hrest _ hmem⟩

/-- Witness for C3: entering WARNING_60 from NORMAL at level 45 alerts
once and a later sustained WARNING_60 reading adds no alert. -/
theorem warning60_single_alert_witness :
    (monitor_iter ⟨true, true, true⟩ ⟨true, true, true⟩ initialState 7
      (some ⟨45, false⟩)).2.telegramAttempts.length = 1 ∧
    (monitor_run ⟨true, true, true⟩ ⟨true, true, true⟩
      (monitor_iter ⟨true, true, true⟩ ⟨true, true, true⟩ initialState 7
        (some ⟨45, false⟩)).1
      ([((1000 : ℚ), (⟨40, true⟩ : BatteryReading))].map (fun q => (q.1, some q.2)))).2 = 0 := by
  have h := warning60_single_alert ⟨true, true, true⟩ ⟨true, true, true⟩ initialState 7 45
    false (by norm_num) (by decide) (by decide)
  exact ⟨h.1, h.2 [(1000, ⟨40, true⟩)] (by decide)⟩

lemma monitor_iter_current (cfg : Config) (env : Env) (s : MonitorState)
    (t level : ℚ) (p : Bool) :
    (monitor_iter cfg env s t (some ⟨level, p⟩)).1.current_state = evaluate_state level := by
  cases hv : evaluate_state level with
  | WARNING_60 =>
    rw [monitor_iter_w60 _ _ _ _ _ _ hv]
    split_ifs <;> simp [apply_transition_current]
  | CRITICAL_30 =>
    rw [monitor_iter_c30 _ _ _ _ _ _ hv]
    split_ifs <;> simp [apply_transition_current]
  | CRITICAL_10 =>
    rw [monitor_iter_c10 _ _ _ _ _ _ hv]
    split_ifs <;> simp [apply_transition_current]
  | NORMAL =>
    rw [monitor_iter_normal _ _ _ _ _ _ hv]

/-- C5: after every iteration on a reading, `current_state` equals the
classification of that reading; a NORMAL classification always leaves
`last_alert_time` at the never-sentinel 0; when the classification
differs from the stored state the iteration behaves exactly as if started
from the re-armed state (new severity, `last_alert_time = 0`); and a
CRITICAL_10 to WARNING_60 transition alerts in that very step, however
recently CRITICAL_10 alerted. -/
theorem transition_resets_cooldown (cfg : Config) (env : Env) (s : MonitorState)
    (t level : ℚ) (p : Bool) :
    (monitor_iter cfg env s t (some ⟨level, p⟩)).1.current_state = evaluate_state level ∧
    (evaluate_state level = .NORMAL →
      (monitor_iter cfg env s t (some ⟨level, p⟩)).1.last_alert_time = 0) ∧
    (evaluate_state level ≠ s.current_state →
      monitor_iter cfg env s t (some ⟨level, p⟩) =
        monitor_iter cfg env ⟨evaluate_state level, 0⟩ t (some ⟨level, p⟩)) ∧
    (s.current_state = .CRITICAL_10 → evaluate_state level = .WARNING_60 →
      (monitor_iter cfg env s t (some ⟨level, p⟩)).2.telegramAttempts =
        [.advertencia level]) := by
  refine ⟨monitor_iter_current cfg env s t level p, ?_, ?_, ?_⟩
  · intro hv
    rw [monitor_iter_normal _ _ _ _ _ _ hv]
  · intro hne
    have hAT : apply_transition s (evaluate_state level) = ⟨evaluate_state level, 0⟩ := by
      unfold apply_transition
      rw [if_pos hne]
    have hAT2 : apply_transition ⟨evaluate_state level, 0⟩ (evaluate_state level) =
        ⟨evaluate_state level, 0⟩ := by
      simp [apply_transition]
    rw [monitor_iter_some, monitor_iter_some]
    dsimp only
    rw [hAT, hAT2]
  · intro hcur hsev
    have hco : (BState.WARNING_60 : BState) ≠ s.current_state := by
      rw [hcur]
      decide
    have hA : apply_transition s .WARNING_60 = ⟨.WARNING_60, 0⟩ := by
      unfold apply_transition
      rw [if_pos hco]
    rw [monitor_iter_w60 _ _ _ _ _ _ hsev, hA]
    rw [if_pos (show ((⟨BState.WARNING_60, (0 : ℚ)⟩ : MonitorState).last_alert_time = 0)
      from rfl)]
    simp [alertLog]

/-- Witness for C5: a CRITICAL_10 state that alerted at time 990
transitions to WARNING_60 at time 1000 and alerts immediately. -/
theorem transition_resets_cooldown_witness :
    (monitor_iter ⟨true, true, true⟩ ⟨true, true, true⟩ ⟨.CRITICAL_10, 990⟩ 1000
      (some ⟨45, false⟩)).2.telegramAttempts = [.advertencia 45] :=
  (transition_resets_cooldown ⟨true, true, true⟩ ⟨true, true, true⟩ ⟨.CRITICAL_10, 990⟩
    1000 45 false).2.2.2 rfl (by decide)

/-- C7: when the sensor read fails or finds no battery
(`get_battery_status` returns None, covering both the no-battery case and
a raised exception), the iteration leaves the state untouched, performs
no notifier call at all, and the loop simply continues with the
remaining iterations. -/
theorem sensor_failure_skips (cfg : Config) (env : Env) (s : MonitorState) (t : ℚ)
    (sr : SensorOutcome) (h : get_battery_status sr = none) :
    monitor_iter cfg env s t (get_battery_status sr) = (s, emptyLog) ∧
    ∀ rest : List (ℚ × Option BatteryReading),
      monitor_run cfg env s ((t, get_battery_status sr) :: rest) =
        monitor_run cfg env s rest := by
  rw [h]
  refine ⟨rfl, ?_⟩
  intro rest
  simp [monitor_run, monitor_iter, emptyLog]

/-- Witness for C7 at the exception outcome of the sensor read. -/
theorem sensor_failure_skips_witness :
    monitor_iter ⟨true, true, true⟩ ⟨true, true, true⟩ initialState 1000
      (get_battery_status .raises) = (initialState, emptyLog) :=
  (sensor_failure_skips ⟨true, true, true⟩ ⟨true, true, true⟩ initialState 1000
    .raises rfl).1

/-- C8: a failing MQTT publish is swallowed inside `publish_mqtt`: the
iteration outcome — state, webhook attempts and deliveries, Telegram
attempts and deliveries, future-action calls — does not depend on the
MQTT success oracle, and whenever a webhook URL is configured the webhook
post is attempted on every reading regardless of that oracle. -/
theorem mqtt_failure_isolated (cfg : Config) (s : MonitorState) (t : ℚ)
    (r : Option BatteryReading) (tg w m m2 : Bool) :
    ((monitor_iter cfg ⟨tg, m, w⟩ s t r).1 = (monitor_iter cfg ⟨tg, m2, w⟩ s t r).1 ∧
     (monitor_iter cfg ⟨tg, m, w⟩ s t r).2.webhookPosts =
       (monitor_iter cfg ⟨tg, m2, w⟩ s t r).2.webhookPosts ∧
     (monitor_iter cfg ⟨tg, m, w⟩ s t r).2.webhookDelivered =
       (monitor_iter cfg ⟨tg, m2, w⟩ s t r).2.webhookDelivered ∧
     (monitor_iter cfg ⟨tg, m, w⟩ s t r).2.telegramAttempts =
       (monitor_iter cfg ⟨tg, m2, w⟩ s t r).2.telegramAttempts ∧
     (monitor_iter cfg ⟨tg, m, w⟩ s t r).2.telegramDelivered =
       (monitor_iter cfg ⟨tg, m2, w⟩ s t r).2.telegramDelivered ∧
     (monitor_iter cfg ⟨tg, m, w⟩ s t r).2.futureActionCalls =
       (monitor_iter cfg ⟨tg, m2, w⟩ s t r).2.futureActionCalls) ∧
    (cfg.webhook_url = true → ∀ reading : BatteryReading,
      (monitor_iter cfg ⟨tg, m, w⟩ s t (some reading)).2.webhookPosts = 1) := by
  constructor
  · cases r with
    | none => exact ⟨rfl, rfl, rfl, rfl, rfl, rfl⟩
    | some reading => exact ⟨rfl, rfl, rfl, rfl, rfl, rfl⟩
  · intro hw reading
    show (notify_webhook cfg ⟨tg, m, w⟩).1 = 1
    simp [notify_webhook, hw]

/-- Witness for C8: with a webhook configured and the MQTT publish
failing, the webhook is still attempted. -/
theorem mqtt_failure_isolated_witness :
    (monitor_iter ⟨true, true, true⟩ ⟨true, false, true⟩ initialState 1000
      (some ⟨20, false⟩)).2.webhookPosts = 1 :=
  (mqtt_failure_isolated ⟨true, true, true⟩ initialState 1000 (some ⟨20, false⟩)
    true true false true).2 rfl ⟨20, false⟩

/-- Counterexample to C6 as stated: with the Telegram transport failing
(`telegramOk = false`, the `requests.post` in `send_telegram` raises and
the except block swallows it), a fresh CRITICAL_30 iteration at time 1000
delivers no chat message yet still sets `last_alert_time` to 1000. -/
theorem alert_time_set_despite_failed_send :
    (monitor_iter ⟨true, true, true⟩ ⟨false, true, true⟩ initialState 1000
      (some ⟨20, false⟩)).2.telegramDelivered = [] ∧
    (monitor_iter ⟨true, true, true⟩ ⟨false, true, true⟩ initialState 1000
      (some ⟨20, false⟩)).1.last_alert_time = 1000 := by
  have hA : apply_transition initialState .CRITICAL_30 = ⟨.CRITICAL_30, 0⟩ := by
    simp [apply_transition, initialState]
  rw [monitor_iter_c30 _ _ _ _ _ _ (by decide), hA, if_pos (by norm_num)]
  simp [alertLog]

lemma apply_transition_last (s : MonitorState) (b : BState) :
    (apply_transition s b).last_alert_time = 0 ∨
    (apply_transition s b).last_alert_time = s.last_alert_time := by
  unfold apply_transition
  split_ifs
  · exact Or.inl rfl
  · exact Or.inr rfl

/-- C6 amended: `last_alert_time` is set to the current time exactly when
an alert send is attempted (the alert branch fires); whether the chat
transport actually delivers is invisible to the loop — `send_telegram`
swallows its exceptions — so the resulting state does not depend on any
transport success oracle.  (Clock hypotheses: the current time is
positive and later than the stored `last_alert_time`.) -/
theorem last_alert_update_independent_of_delivery (cfg : Config) (env env2 : Env)
    (s : MonitorState) (t : ℚ) (r : Option BatteryReading)
    (h0 : 0 < t) (hlt : s.last_alert_time < t) :
    (monitor_iter cfg env s t r).1 = (monitor_iter cfg env2 s t r).1 ∧
    ((monitor_iter cfg env s t r).1.last_alert_time = t ↔
      (monitor_iter cfg env s t r).2.telegramAttempts ≠ []) := by
  constructor
  · cases r with
    | none => rfl
    | some reading =>
      obtain ⟨level, p⟩ := reading
      cases hv : evaluate_state level with
      | NORMAL =>
        rw [monitor_iter_normal _ _ _ _ _ _ hv, monitor_iter_normal _ _ _ _ _ _ hv]
      | WARNING_60 =>
        rw [monitor_iter_w60 _ _ _ _ _ _ hv, monitor_iter_w60 _ _ _ _ _ _ hv]
        split_ifs <;> rfl
      | CRITICAL_30 =>
        rw [monitor_iter_c30 _ _ _ _ _ _ hv, monitor_iter_c30 _ _ _ _ _ _ hv]
        split_ifs <;> rfl
      | CRITICAL_10 =>
        rw [monitor_iter_c10 _ _ _ _ _ _ hv, monitor_iter_c10 _ _ _ _ _ _ hv]
        split_ifs <;> rfl
  · cases r with
    | none =>
      simp [monitor_iter, emptyLog]
      exact hlt.ne
    | some reading =>
      obtain ⟨level, p⟩ := reading
      cases hv : evaluate_state level with
      | NORMAL =>
        rw [monitor_iter_normal _ _ _ _ _ _ hv]
        simp
        exact h0.ne
      | WARNING_60 =>
        rw [monitor_iter_w60 _ _ _ _ _ _ hv]
        by_cases hz : (apply_transition s .WARNING_60).last_alert_time = 0
        · rw [if_pos hz]
          simp [alertLog]
        · rw [if_neg hz]
          simp [quietLog]
          rcases apply_transition_last s .WARNING_60 with hL | hL
          · exact absurd hL hz
          · rw [hL]
            exact hlt.ne
      | CRITICAL_30 =>
        rw [monitor_iter_c30 _ _ _ _ _ _ hv]
        by_cases hc : 300 < t - (apply_transition s .CRITICAL_30).last_alert_time
        · rw [if_pos hc]
          simp [alertLog]
        · rw [if_neg hc]
          simp [quietLog]
          rcases apply_transition_last s .CRITICAL_30 with hL | hL
          · rw [hL]
            exact h0.ne
          · rw [hL]
            exact hlt.ne
      | CRITICAL_10 =>
        rw [monitor_iter_c10 _ _ _ _ _ _ hv]
        by_cases hc : 60 < t - (apply_transition s .CRITICAL_10).last_alert_time
        · rw [if_pos hc]
          simp [alertLog]
        · rw [if_neg hc]
          simp [quietLog]
          rcases apply_transition_last s .CRITICAL_10 with hL | hL
          · rw [hL]
            exact h0.ne
          · rw [hL]
            exact hlt.ne

/-- Witness for the amended C6 at a concrete failing-transport input. -/
theorem last_alert_update_independent_of_delivery_witness :
    (monitor_iter ⟨true, true, true⟩ ⟨false, true, true⟩ initialState 1000
      (some ⟨20, false⟩)).1 =
      (monitor_iter ⟨true, true, true⟩ ⟨true, true, true⟩ initialState 1000
        (some ⟨20, false⟩)).1 ∧
    ((monitor_iter ⟨true, true, true⟩ ⟨false, true, true⟩ initialState 1000
        (some ⟨20, false⟩)).1.last_alert_time = 1000 ↔
      (monitor_iter ⟨true, true, true⟩ ⟨false, true, true⟩ initialState 1000
        (some ⟨20, false⟩)).2.telegramAttempts ≠ []) :=
  last_alert_update_independent_of_delivery ⟨true, true, true⟩ ⟨false, true, true⟩
    ⟨true, true, true⟩ initialState 1000 (some ⟨20, false⟩) (by decide) (by decide)

/-- Counterexample to C9 as stated: an exception raised during the sensor
read is caught inside `get_battery_status`, which returns None, so the
route answers 500 No-battery — not 500 Internal-error as the claim
asserts. -/
theorem battery_route_sensor_exception :
    battery_route false .raises = (500, .errorNoBattery) ∧
    battery_route false .raises ≠ (500, .errorInternal) := by
  exact ⟨rfl, by decide⟩

/-- C9 amended: the `/battery` route answers 200 with the reading when
the sensor read succeeds, 500 No-battery both when no battery is present
and when the sensor read raises (the exception is swallowed inside
`get_battery_status`), and 500 Internal-error only when an exception
occurs in the route body itself, outside the sensor read. -/
theorem battery_route_responses (l : ℚ) (p : Bool) (sr : SensorOutcome) :
    battery_route false (.battery l p) = (200, .status l p) ∧
    battery_route false .noBattery = (500, .errorNoBattery) ∧
    battery_route false .raises = (500, .errorNoBattery) ∧
    battery_route true sr = (500, .errorInternal) := by
  refine ⟨rfl, rfl, rfl, ?_⟩
  cases sr <;> rfl

/-- C10: within one iteration on a reading, the future-action hook is
called once for every alert dispatched (with the alerted level) plus once
more — independently of severity and cooldown — when the level is exactly
100; every call receives the current level, and at most one alert is
dispatched per iteration, so the call count is the alert count plus the
level-100 extra. -/
theorem future_action_sites (cfg : Config) (env : Env) (s : MonitorState)
    (t level : ℚ) (p : Bool) :
    (monitor_iter cfg env s t (some ⟨level, p⟩)).2.futureActionCalls.length =
      (monitor_iter cfg env s t (some ⟨level, p⟩)).2.telegramAttempts.length +
        (if level = 100 then 1 else 0) ∧
    (∀ x ∈ (monitor_iter cfg env s t (some ⟨level, p⟩)).2.futureActionCalls, x = level) ∧
    (level = 100 → (monitor_iter cfg env s t (some ⟨level, p⟩)).2.futureActionCalls ≠ []) ∧
    (monitor_iter cfg env s t (some ⟨level, p⟩)).2.telegramAttempts.length ≤ 1 := by
  cases hv : evaluate_state level with
  | NORMAL =>
    rw [monitor_iter_normal _ _ _ _ _ _ hv]
    by_cases h100 : level = 100
    · subst h100
      simp
    · simp [h100]
  | WARNING_60 =>
    have h100 : level ≠ 100 := by
      rintro rfl
      rw [evaluate_state_hundred] at hv
      exact BState.noConfusion hv
    rw [monitor_iter_w60 _ _ _ _ _ _ hv]
    split_ifs <;> simp [alertLog, quietLog, h100]
  | CRITICAL_30 =>
    have h100 : level ≠ 100 := by
      rintro rfl
      rw [evaluate_state_hundred] at hv
      exact BState.noConfusion hv
    rw [monitor_iter_c30 _ _ _ _ _ _ hv]
    split_ifs <;> simp [alertLog, quietLog, h100]
  | CRITICAL_10 =>
    have h100 : level ≠ 100 := by
      rintro rfl
      rw [evaluate_state_hundred] at hv
      exact BState.noConfusion hv
    rw [monitor_iter_c10 _ _ _ _ _ _ hv]
    split_ifs <;> simp [alertLog, quietLog, h100]

/-- Witness for C10: a reading of exactly 100 invokes the hook even
though NORMAL never alerts. -/
theorem future_action_sites_witness :
    (monitor_iter ⟨true, true, true⟩ ⟨true, true, true⟩ initialState 1000
      (some ⟨100, true⟩)).2.futureActionCalls ≠ [] :=
  (future_action_sites ⟨true, true, true⟩ ⟨true, true, true⟩ initialState 1000 100
    true).2.2.1 rfl
